import Mathlib

/-!
Shallow embedding of the DREM Timekeeper (src/website/src/admin/timekeeper/timekeeper.js)
and the car-model upload poller (class CarModelUploadModal in src/website/src/home.js).

The React component state is modelled as explicit records; each event handler is a
function on the state.  Handlers run sequentially (single-threaded event loop), so a
handler sees the state left by the previous one.  The `useTimer` and `useCounter`
hooks are imported by timekeeper.js from src/website/src/hooks/, which is not part of
the provided sources; their semantics are modelled from the spec (sections 4.2, 4.3)
where noted.
-/

set_option autoImplicit false

namespace DREM

/-- A captured lap, as built by captureNewLapHandler:
`{ id, time, resets, crashes, isValid }` with all fields populated. -/
structure Lap where
  id : Nat
  time : Nat
  resets : Nat
  crashes : Nat
  isValid : Bool
deriving Repr, DecidableEq

/-- The currentLap record kept in component state; only its `crashes` field survives
into a captured lap (the spread in captureNewLapHandler overrides the others).
`id` is `null` initially, hence an `Option`. -/
structure CurrentLap where
  id : Option Nat
  time : Nat
  resets : Nat
  crashes : Nat
  isValid : Bool
deriving Repr, DecidableEq

/-- The initial currentLap object `{ id: null, time: 0, resets: 0, crashes: 0, isValid: false }`. -/
def initCurrentLap : CurrentLap :=
  { id := none, time := 0, resets := 0, crashes := 0, isValid := false }

/-- State of the Timekeeper component: the useState hooks plus the counter and
stopwatch values held by the useCounter / useTimer hooks. -/
structure TKState where
  username : Option String
  currentLap : CurrentLap
  laps : List Lap
  carResetCounter : Nat
  timeInMilliseconds : Nat
  lapTimerIsRunning : Bool
  timerIsReset : Bool
  racerSelectorVisible : Bool
  endSessionVisible : Bool
deriving Repr, DecidableEq

/-- Initial component state: no racer selected, no laps, counter 0, stopwatch at 0
and not running, racer-selection modal visible. -/
def initTKState : TKState :=
  { username := none
    currentLap := initCurrentLap
    laps := []
    carResetCounter := 0
    timeInMilliseconds := 0
    lapTimerIsRunning := false
    timerIsReset := false
    racerSelectorVisible := true
    endSessionVisible := false }

/-- Modelled from the spec (section 4.2): the useTimer hook is not under src/; its
`reset(toMs = 0)` sets the accumulated elapsed value to `toMs`. -/
def resetLapTimer (toMs : Nat) (s : TKState) : TKState :=
  { s with timeInMilliseconds := toMs }

/-- Modelled from the spec (section 4.2): the useTimer hook is not under src/; while
running, the stopwatch accumulates elapsed wall-clock time. `lapTimerElapse d`
advances the accumulated value by `d` milliseconds when the timer is running. -/
def lapTimerElapse (d : Nat) (s : TKState) : TKState :=
  if s.lapTimerIsRunning then { s with timeInMilliseconds := s.timeInMilliseconds + d } else s

/-- Modelled from the spec (section 4.2): `pause()` halts and freezes the accumulated value. -/
def pauseLapTimer (s : TKState) : TKState :=
  { s with lapTimerIsRunning := false }

/-- Modelled from the spec (section 4.2): `start()` resumes counting from the current value. -/
def startLapTimer (s : TKState) : TKState :=
  { s with lapTimerIsRunning := true }

/-- Modelled from the spec (section 4.3): the useCounter hook is not under src/; its
reset sets the counter to zero. -/
def resetCarResetCounter (s : TKState) : TKState :=
  { s with carResetCounter := 0 }

/-- captureNewLapHandler (timekeeper.js lines 86-102): builds a lap with
`id = laps.length`, `time = timeInMilliseconds`, `resets = carResetCounter`,
`isValid = lapIsValid` (crashes spread from currentLap), appends it, resets the
currentLap record, the reset counter and the lap timer.  There is no state guard. -/
def captureNewLapHandler (lapIsValid : Bool) (s : TKState) : TKState :=
  let lapId := s.laps.length
  let currentLapStats : Lap :=
    { id := lapId
      time := s.timeInMilliseconds
      resets := s.carResetCounter
      crashes := s.currentLap.crashes
      isValid := lapIsValid }
  resetLapTimer 0 (resetCarResetCounter
    { s with laps := s.laps ++ [currentLapStats], currentLap := initCurrentLap })

/-- The DNF / Capture Lap buttons (timekeeper.js lines 238, 244) are rendered with
`disabled = not lapTimerIsRunning`; a disabled button never fires its onClick, so a
click is a no-op unless the lap timer is running. -/
def captureLapButtonClick (lapIsValid : Bool) (s : TKState) : TKState :=
  if s.lapTimerIsRunning then captureNewLapHandler lapIsValid s else s

/-- undoFalseFinishHandler (timekeeper.js lines 156-163): pops the last lap and calls
`resetLapTimer(timeInMilliseconds + lastLap.time)`.  On an empty lap list, `pop()`
yields `undefined` and reading `lastLap.time` throws a TypeError, modelled as
`Except.error`. -/
def undoFalseFinishHandler (s : TKState) : Except String TKState :=
  match s.laps.getLast? with
  | none => .error "TypeError: cannot read property time of undefined"
  | some lastLap =>
      .ok (resetLapTimer (s.timeInMilliseconds + lastLap.time)
        { s with laps := s.laps.dropLast })

/-- resetRace (timekeeper.js lines 166-178): clears the username, arms the countdown
reset flag, pauses and resets the lap timer, clears the laps and the currentLap
record, hides the end-session modal and shows the racer-selection modal.
It does NOT touch carResetCounter. -/
def resetRace (s : TKState) : TKState :=
  resetLapTimer 0 (pauseLapTimer
    { s with
        username := none
        timerIsReset := true
        laps := []
        currentLap := initCurrentLap
        endSessionVisible := false
        racerSelectorVisible := true })

/-- submitRaceHandler (timekeeper.js lines 104-107): logs and calls resetRace. -/
def submitRaceHandler (s : TKState) : TKState := resetRace s

/-- abandonRaceHandler (timekeeper.js lines 109-112): logs and calls resetRace. -/
def abandonRaceHandler (s : TKState) : TKState := resetRace s

/-- JavaScript `Math.min.apply(Math, nums)` over a list of numbers; the empty case
(where JS yields Infinity) is unreachable in the fastest-lap effect, which only
evaluates it on a non-empty list of valid laps. -/
def jsMathMin : List Nat → Nat
  | [] => 0
  | x :: xs => xs.foldl min x

/-- The fastest-lap effect (timekeeper.js lines 54-79): filter the valid laps, take
the minimum of their times, and return the first valid lap attaining it (as a
singleton list); empty list when there is no valid lap.  The `find?` always succeeds
because the minimum is attained; the `none` branch mirrors the unreachable JS case. -/
def computeFastestLap (laps : List Lap) : List Lap :=
  if laps.length ≠ 0 then
    let validLaps := laps.filter (fun o => o.isValid)
    if validLaps.length ≠ 0 then
      let res := jsMathMin (validLaps.map (fun o => o.time))
      match validLaps.find? (fun o => o.time == res) with
      | some obj => [obj]
      | none => []
    else []
  else []

/-- Operator actions on the lap list considered by the density invariant. -/
inductive TKAction where
  | capture (valid : Bool)
  | undo
deriving Repr, DecidableEq

/-- Run a sequence of capture / undo actions; an undo on an empty lap list throws in
the source, so the run yields `none` there (such traces are outside the claim). -/
def runTKActions (s : TKState) : List TKAction → Option TKState
  | [] => some s
  | TKAction.capture v :: rest => runTKActions (captureNewLapHandler v s) rest
  | TKAction.undo :: rest =>
      match undoFalseFinishHandler s with
      | .ok s2 => runTKActions s2 rest
      | .error _ => none

/-- Lap-id density: every lap stores its own index. -/
def lapsDense (l : List Lap) : Prop :=
  ∀ i : Fin l.length, (l.get i).id = i.val

/-! ### Upload poller (class CarModelUploadModal, src/website/src/home.js)

`tick` is the interval callback; `uploadModelToCarStatus` is async, so within one
tick the status POST is issued synchronously but its response resolves only after
the tick's own `uploadStatus !== "InProgress"` check has run.  With the default
1000 ms delay the response to tick N
arrives before tick N+1 fires, so each tick is modelled as: issue the query, run
the check against the still-current (previous) status, then apply the response. -/

/-- State of the class component CarModelUploadModal.  `queriesIssued` instruments
the number of status POSTs sent (the source's own `count` field counts tick firings
only, not Refresh queries).  `intervalSet` records whether the recurring interval
is armed; `result` is `none` when the response object was null/undefined. -/
structure PollState where
  openModal : Bool
  resultOpen : Bool
  result : Option String
  currentInstanceId : String
  commandId : Option String
  uploadStatus : String
  count : Nat
  intervalSet : Bool
  queriesIssued : Nat
deriving Repr, DecidableEq

/-- Constructor state of CarModelUploadModal (home.js lines 77-86). -/
def initPollState : PollState :=
  { openModal := false
    resultOpen := false
    result := some ""
    currentInstanceId := ""
    commandId := none
    uploadStatus := ""
    count := 0
    intervalSet := false
    queriesIssued := 0 }

/-- The synchronous half of uploadModelToCarStatus (home.js lines 116-134): the
status POST is sent.  Counted by the instrumentation field. -/
def issueStatusQuery (s : PollState) : PollState :=
  { s with queriesIssued := s.queriesIssued + 1 }

/-- The asynchronous half of uploadModelToCarStatus: when the POST resolves with
`response`, the component sets `result` and `uploadStatus` to it, with no check of
whether the interval was cancelled in the meantime. -/
def resolveStatusQuery (response : String) (s : PollState) : PollState :=
  { s with result := some response, uploadStatus := response }

/-- tick (home.js lines 141-151): increments `count`, calls uploadModelToCarStatus
(issuing a query), then checks `this.state.uploadStatus !== "InProgress"` — which
still holds the status from the PREVIOUS response, the new one being un-resolved —
and clears the interval if so; afterwards the response resolves.  A tick only fires
while the interval is armed. -/
def tick (response : String) (s : PollState) : PollState :=
  if s.intervalSet then
    let s1 := { s with count := s.count + 1 }
    let s2 := issueStatusQuery s1
    let s3 := if s2.uploadStatus ≠ "InProgress" then { s2 with intervalSet := false } else s2
    resolveStatusQuery response s3
  else s

/-- Run consecutive ticks, response k answering the query of tick k. -/
def runTicks (responses : List String) (s : PollState) : PollState :=
  responses.foldl (fun st r => tick r st) s

/-- uploadModelToCar (home.js lines 93-114): awaits the submit POST.  A transport
error rejects the async function before any setState runs (no interval started).
On any resolved response — even null / one carrying no command id — the component
stores it as `result` and `CommandId`, sets `uploadStatus` to "InProgress" and
starts the recurring interval.  There is no validation of the response. -/
def uploadModelToCar (instanceId : String) (response : Except Unit (Option String))
    (s : PollState) : Except Unit PollState :=
  match response with
  | .error e => .error e
  | .ok r =>
      .ok { s with
              result := r
              commandId := r
              currentInstanceId := instanceId
              uploadStatus := "InProgress"
              intervalSet := true }

/-- The result-view Close button (home.js lines 209-213): hides the result modal,
blanks `result` and clears the recurring interval.  It does not touch an in-flight
status request. -/
def closeResultView (s : PollState) : PollState :=
  { s with resultOpen := false, result := some "", intervalSet := false }

/-- The Refresh button (home.js lines 214-216): one immediate call of
uploadModelToCarStatus — a single query and its resolution — with no effect on the
recurring interval. -/
def refreshClick (response : String) (s : PollState) : PollState :=
  resolveStatusQuery response (issueStatusQuery s)

/-! ### JavaScript-array model for actionHandler (timekeeper.js lines 126-133)

actionHandler spreads `laps[id]` into a fresh object and negates `isValid`; when
`id` is beyond the array, `laps[id]` is `undefined`, the spread yields `{}`, and
`!undefined` is `true`, so the assignment `lapsCopy[id] = updatedLap` extends the
array (holes in between) with an object whose only field is `isValid: true`.
JS objects with possibly-absent fields are modelled with `Option` fields, and a JS
array with holes as a list of `Option`. -/

/-- A lap object as JavaScript sees it: every field may be absent (undefined). -/
structure LapObj where
  id : Option Nat
  time : Option Nat
  resets : Option Nat
  crashes : Option Nat
  isValid : Option Bool
deriving Repr, DecidableEq

/-- A lap with all fields present, as a JS object. -/
def Lap.toObj (l : Lap) : LapObj :=
  { id := some l.id, time := some l.time, resets := some l.resets,
    crashes := some l.crashes, isValid := some l.isValid }

/-- A JS array of lap objects; `none` entries are holes (undefined elements). -/
abbrev JsLapArr : Type := List (Option LapObj)

/-- `arr[id]` in JS: undefined beyond the length and at holes. -/
def jsIndex (arr : JsLapArr) (id : Nat) : Option LapObj :=
  (List.get? arr id).join

/-- Spreading a possibly-undefined object: `\x7b...undefined\x7d` is `\x7b\x7d`. -/
def jsSpread : Option LapObj → LapObj
  | some l => l
  | none => { id := none, time := none, resets := none, crashes := none, isValid := none }

/-- JavaScript `!v` on a possibly-absent boolean: `!undefined` and `!false` are true. -/
def jsNot : Option Bool → Bool
  | some true => false
  | _ => true

/-- `arr[id] = v` in JS: in-range assignment replaces; beyond the end the array is
extended with holes so that its length becomes `id + 1`. -/
def jsAssign (arr : JsLapArr) (id : Nat) (v : LapObj) : JsLapArr :=
  if id < arr.length then arr.set id (some v)
  else arr ++ List.replicate (id - arr.length) none ++ [some v]

/-- actionHandler (timekeeper.js lines 126-133) on the JS-array model: copy the
array, spread `laps[id]` into a fresh object, negate `isValid`, store it back at
index `id`. -/
def actionHandlerJs (laps : JsLapArr) (id : Nat) : JsLapArr :=
  let updatedLap0 := jsSpread (jsIndex laps id)
  let updatedLap := { updatedLap0 with isValid := some (jsNot updatedLap0.isValid) }
  jsAssign laps id updatedLap

/-- Density on the JS-array model: every index holds an object whose `id` field is
that index. -/
def jsLapsDense (arr : JsLapArr) : Prop :=
  ∀ i : Fin arr.length, ∃ l : LapObj, arr.get i = some l ∧ l.id = some i.val

/-! ### Concrete demonstration states used by witnesses and counterexamples -/

/-- A capture / capture / undo / capture trace. -/
def c1DemoActs : List TKAction := [.capture true, .capture false, .undo, .capture true]

/-- The state reached by running `c1DemoActs` from the initial state. -/
def c1DemoFinal : TKState :=
  { initTKState with
      laps := [{ id := 0, time := 0, resets := 0, crashes := 0, isValid := true },
               { id := 1, time := 0, resets := 0, crashes := 0, isValid := true }] }

/-- The lap list of the worked fastest-lap example in the spec. -/
def c2DemoLaps : List Lap :=
  [⟨0, 1000, 0, 0, true⟩, ⟨1, 900, 0, 0, false⟩, ⟨2, 1100, 0, 0, true⟩]

/-- A mid-race state: racer selected, stopwatch running at 4321 ms. -/
def c3DemoState : TKState :=
  { initTKState with
      username := some "alice"
      lapTimerIsRunning := true
      timeInMilliseconds := 4321 }

/-- A session state with three penalty resets pending on the current lap. -/
def c4DemoState : TKState :=
  { initTKState with username := some "alice", carResetCounter := 3 }

/-- A paused (not Racing) state: stopwatch not running, no laps captured yet. -/
def c8DemoState : TKState :=
  { initTKState with username := some "alice", timeInMilliseconds := 1234 }

/-- The component state right after a successful submit of an upload: status
InProgress, the recurring interval armed, no status query issued yet. -/
def pollDemoStart : PollState :=
  { initPollState with
      result := some "cmd-1"
      commandId := some "cmd-1"
      currentInstanceId := "i-1"
      uploadStatus := "InProgress"
      intervalSet := true }

end DREM

/-! ## Theorems -/

namespace DREM

/-- The empty lap list is dense. -/
theorem lapsDense_nil : lapsDense [] := fun i => absurd i.isLt (by simp)

/-- Appending a lap that stores the current length preserves density. -/
theorem lapsDense_concat {l : List Lap} {a : Lap} (hd : lapsDense l)
    (ha : a.id = l.length) : lapsDense (l ++ [a]) := by
  rintro ⟨i, hi⟩
  have hi2 : i < l.length + 1 := by simpa using hi
  rcases Nat.lt_succ_iff_lt_or_eq.mp hi2 with h | h
  · have := hd ⟨i, h⟩
    simpa [List.get_eq_getElem, List.getElem_append_left h] using this
  · subst h
    simpa [List.get_eq_getElem, List.getElem_concat_length] using ha

/-- Dropping the last lap preserves density. -/
theorem lapsDense_dropLast {l : List Lap} (hd : lapsDense l) : lapsDense l.dropLast := by
  rintro ⟨i, hi⟩
  have hi2 : i < l.length := lt_of_lt_of_le hi (by simp [List.length_dropLast])
  have := hd ⟨i, hi2⟩
  simpa [List.get_eq_getElem, List.getElem_dropLast] using this

/-- The lap list produced by a capture is the old one with the new lap appended. -/
theorem captureNewLapHandler_laps (v : Bool) (s : TKState) :
    (captureNewLapHandler v s).laps =
      s.laps ++ [{ id := s.laps.length, time := s.timeInMilliseconds,
                   resets := s.carResetCounter, crashes := s.currentLap.crashes,
                   isValid := v }] := rfl

/-- A successful undo drops the last lap. -/
theorem undoFalseFinishHandler_laps {s s2 : TKState}
    (h : undoFalseFinishHandler s = .ok s2) : s2.laps = s.laps.dropLast := by
  unfold undoFalseFinishHandler at h
  cases hl : s.laps.getLast? with
  | none => rw [hl] at h; exact absurd h (by simp)
  | some lastLap =>
      rw [hl] at h
      cases h
      rfl

/-- Running any capture / undo trace preserves lap-id density. -/
theorem runTKActions_dense :
    ∀ (acts : List TKAction) (s s2 : TKState), lapsDense s.laps →
      runTKActions s acts = some s2 → lapsDense s2.laps := by
  intro acts
  induction acts with
  | nil =>
      intro s s2 hd h
      cases h
      exact hd
  | cons a rest ih =>
      intro s s2 hd h
      cases a with
      | capture v =>
          refine ih _ s2 ?_ h
          rw [captureNewLapHandler_laps]
          exact lapsDense_concat hd rfl
      | undo =>
          revert h
          unfold runTKActions
          cases hu : undoFalseFinishHandler s with
          | error e => intro h; exact absurd h (by simp)
          | ok s1 =>
              intro h
              refine ih s1 s2 ?_ h
              rw [undoFalseFinishHandler_laps hu]
              exact lapsDense_dropLast hd

/-- Claim C1: starting from an empty lap sequence, after any sequence of capture-lap
calls (valid or DNF) interleaved with undo-last-capture calls on a non-empty
sequence (an undo on an empty sequence aborts the run), every lap satisfies
`laps[i].id = i`, and each capture-lap call grows `laps.length` by exactly one. -/
theorem c1_lap_id_density (s0 : TKState) (h0 : s0.laps = [])
    (acts : List TKAction) (s2 : TKState) (hrun : runTKActions s0 acts = some s2) :
    lapsDense s2.laps ∧
      ∀ (v : Bool) (s : TKState),
        (captureNewLapHandler v s).laps.length = s.laps.length + 1 := by
  constructor
  · refine runTKActions_dense acts s0 s2 ?_ hrun
    rw [h0]
    exact lapsDense_nil
  · intro v s
    rw [captureNewLapHandler_laps]
    simp

/-- Witness for C1: the trace capture, capture, undo, capture from the initial state
reaches a dense two-lap list, and a capture adds exactly one lap. -/
theorem c1_lap_id_density_witness :
    lapsDense c1DemoFinal.laps ∧
      (captureNewLapHandler true initTKState).laps.length = initTKState.laps.length + 1 := by
  have h := c1_lap_id_density initTKState rfl c1DemoActs c1DemoFinal (by decide)
  exact ⟨h.1, h.2 true initTKState⟩

/-- Claim C3: capturing a lap while the stopwatch runs, letting `d` more
milliseconds elapse, then undoing the capture, removes the captured lap
(`laps` — hence `laps.length` — returns to its pre-capture value) and sets the
stopwatch to `removedLap.time + d`, i.e. exactly `d` beyond its pre-capture value. -/
theorem c3_undo_capture_roundtrip (s : TKState) (v : Bool) (d : Nat)
    (h : s.lapTimerIsRunning = true) :
    ∃ s2, undoFalseFinishHandler (lapTimerElapse d (captureNewLapHandler v s)) =
        Except.ok s2 ∧
      s2.laps = s.laps ∧
      s2.laps.length = s.laps.length ∧
      s2.timeInMilliseconds = s.timeInMilliseconds + d := by
  use { s with currentLap := initCurrentLap, carResetCounter := 0,
               timeInMilliseconds := d + s.timeInMilliseconds }
  refine ⟨?_, rfl, rfl, Nat.add_comm d s.timeInMilliseconds⟩
  unfold undoFalseFinishHandler lapTimerElapse captureNewLapHandler
    resetLapTimer resetCarResetCounter
  simp [h, List.getLast?_concat, List.dropLast_concat]

/-- Witness for C3 at a concrete mid-race state, `d = 250`. -/
theorem c3_undo_capture_roundtrip_witness :
    c3DemoState.lapTimerIsRunning = true ∧
      ∃ s2, undoFalseFinishHandler (lapTimerElapse 250 (captureNewLapHandler true c3DemoState)) =
          Except.ok s2 ∧
        s2.laps = c3DemoState.laps ∧
        s2.laps.length = c3DemoState.laps.length ∧
        s2.timeInMilliseconds = c3DemoState.timeInMilliseconds + 250 :=
  ⟨rfl, c3_undo_capture_roundtrip c3DemoState true 250 rfl⟩

/-- Counterexample to claim C4: ending the session from a state with three pending
penalty resets leaves the reset counter at 3 — the claimed value 0 is wrong, because
resetRace never calls resetCarResetCounter. -/
theorem c4_reset_counter_not_cleared :
    (submitRaceHandler c4DemoState).carResetCounter = 3 ∧
      (abandonRaceHandler c4DemoState).carResetCounter ≠ 0 := by
  decide

/-- Claim C4 as amended: after End Session is confirmed (submit or abandon, both of
which call resetRace), the session has `racerName` undefined, an empty lap
sequence, the stopwatch reset to 0 and paused, the countdown reset flag armed, and
is back awaiting a racer (selection modal visible) — but the reset counter is NOT
cleared: it keeps its pre-reset value. -/
theorem c4_end_session_reset (s : TKState) :
    submitRaceHandler s = resetRace s ∧
    abandonRaceHandler s = resetRace s ∧
    (resetRace s).username = none ∧
    (resetRace s).laps = [] ∧
    (resetRace s).currentLap = initCurrentLap ∧
    (resetRace s).timeInMilliseconds = 0 ∧
    (resetRace s).lapTimerIsRunning = false ∧
    (resetRace s).timerIsReset = true ∧
    (resetRace s).endSessionVisible = false ∧
    (resetRace s).racerSelectorVisible = true ∧
    (resetRace s).carResetCounter = s.carResetCounter := by
  refine ⟨rfl, rfl, ?_, ?_, ?_, ?_, ?_, ?_, ?_, ?_, ?_⟩ <;> rfl

/-- Counterexample to claim C7: with an empty lap list, undoFalseFinishHandler is
not a silent no-op — `pop()` yields undefined and reading `.time` throws. -/
theorem c7_undo_empty_throws :
    initTKState.laps = [] ∧
      undoFalseFinishHandler initTKState =
        Except.error "TypeError: cannot read property time of undefined" := by
  constructor
  · rfl
  · rfl

/-- Claim C7 as amended: on every state whose lap sequence is empty, invoking
undo-last-capture raises a TypeError (reading `.time` of undefined) instead of
being a no-op; no state with the lap removed is produced. -/
theorem c7_undo_empty_error (s : TKState) (h : s.laps = []) :
    undoFalseFinishHandler s =
      Except.error "TypeError: cannot read property time of undefined" := by
  unfold undoFalseFinishHandler
  rw [h]
  rfl

/-- Witness for C7 at the initial state. -/
theorem c7_undo_empty_error_witness :
    initTKState.laps = [] ∧
      undoFalseFinishHandler initTKState =
        Except.error "TypeError: cannot read property time of undefined" :=
  ⟨rfl, c7_undo_empty_error initTKState rfl⟩

/-- Counterexample to claim C8: in a state that is not Racing (stopwatch not
running), calling captureNewLapHandler directly is not rejected — it appends a
lap. -/
theorem c8_capture_not_guarded :
    c8DemoState.lapTimerIsRunning = false ∧
      c8DemoState.laps.length = 0 ∧
      (captureNewLapHandler true c8DemoState).laps.length = 1 := by
  decide

/-- Claim C8 as amended: while the session is not Racing the UI layer rejects the
request — the DNF / Capture Lap buttons are disabled, so a click is a no-op — but
the handler itself has no defensive guard: invoked directly outside Racing it
appends a lap all the same. -/
theorem c8_capture_outside_racing (s : TKState) (v : Bool)
    (h : s.lapTimerIsRunning = false) :
    captureLapButtonClick v s = s ∧
      (captureNewLapHandler v s).laps.length = s.laps.length + 1 := by
  constructor
  · unfold captureLapButtonClick
    rw [h]
    rfl
  · rw [captureNewLapHandler_laps]
    simp

/-- Witness for C8 at a concrete paused state. -/
theorem c8_capture_outside_racing_witness :
    c8DemoState.lapTimerIsRunning = false ∧
      captureLapButtonClick true c8DemoState = c8DemoState ∧
      (captureNewLapHandler true c8DemoState).laps.length = c8DemoState.laps.length + 1 :=
  ⟨rfl, c8_capture_outside_racing c8DemoState true rfl⟩

/-- A left fold of `min` is bounded by its starting value. -/
theorem foldl_min_le_start : ∀ (xs : List Nat) (a : Nat), xs.foldl min a ≤ a := by
  intro xs
  induction xs with
  | nil => intro a; exact le_refl a
  | cons x xs ih =>
      intro a
      calc (x :: xs).foldl min a = xs.foldl min (min a x) := rfl
        _ ≤ min a x := ih (min a x)
        _ ≤ a := min_le_left a x

/-- A left fold of `min` is bounded by every list element. -/
theorem foldl_min_le_mem :
    ∀ (xs : List Nat) (a y : Nat), y ∈ xs → xs.foldl min a ≤ y := by
  intro xs
  induction xs with
  | nil => intro a y hy; exact absurd hy (List.not_mem_nil y)
  | cons x xs ih =>
      intro a y hy
      rcases List.mem_cons.mp hy with rfl | hy2
      · calc (y :: xs).foldl min a = xs.foldl min (min a y) := rfl
          _ ≤ min a y := foldl_min_le_start xs (min a y)
          _ ≤ y := min_le_right a y
      · exact ih (min a x) y hy2

/-- A left fold of `min` returns its starting value or a list element. -/
theorem foldl_min_mem :
    ∀ (xs : List Nat) (a : Nat), xs.foldl min a = a ∨ xs.foldl min a ∈ xs := by
  intro xs
  induction xs with
  | nil => intro a; exact Or.inl rfl
  | cons x xs ih =>
      intro a
      rcases ih (min a x) with h | h
      · rcases Nat.le_total a x with hax | hxa
        · left
          calc (x :: xs).foldl min a = xs.foldl min (min a x) := rfl
            _ = min a x := h
            _ = a := Nat.min_eq_left hax
        · right
          have hfx : (x :: xs).foldl min a = x := by
            calc (x :: xs).foldl min a = xs.foldl min (min a x) := rfl
              _ = min a x := h
              _ = x := Nat.min_eq_right hxa
          rw [hfx]
          exact List.mem_cons_self x xs
      · right
        exact List.mem_cons_of_mem x h

/-- `Math.min` over a non-empty list is a lower bound of its elements. -/
theorem jsMathMin_le {l : List Nat} {y : Nat} (hy : y ∈ l) : jsMathMin l ≤ y := by
  cases l with
  | nil => exact absurd hy (List.not_mem_nil y)
  | cons x xs =>
      rcases List.mem_cons.mp hy with rfl | hy2
      · exact foldl_min_le_start xs y
      · exact foldl_min_le_mem xs x y hy2

/-- `Math.min` over a non-empty list is attained by one of its elements. -/
theorem jsMathMin_mem {l : List Nat} (hl : l ≠ []) : jsMathMin l ∈ l := by
  cases l with
  | nil => exact absurd rfl hl
  | cons x xs =>
      show xs.foldl min x ∈ x :: xs
      rcases foldl_min_mem xs x with h | h
      · rw [h]; exact List.mem_cons_self x xs
      · exact List.mem_cons_of_mem x h

/-- `find?` splits the list at the first hit: everything before it fails the
predicate. -/
theorem find?_first_split {α : Type} (p : α → Bool) :
    ∀ (l : List α) (a : α), l.find? p = some a →
      ∃ pre post, l = pre ++ a :: post ∧ (∀ x ∈ pre, p x = false) ∧ p a = true := by
  intro l
  induction l with
  | nil => intro a h; exact absurd h (by simp)
  | cons x xs ih =>
      intro a h
      by_cases hx : p x = true
      · rw [List.find?_cons_of_pos _ hx] at h
        cases h
        exact ⟨[], xs, rfl, by intro y hy; exact absurd hy (List.not_mem_nil y), hx⟩
      · have hx2 : p x = false := by
          cases hpx : p x with
          | true => exact absurd hpx hx
          | false => rfl
        rw [List.find?_cons_of_neg _ (by simp [hx2])] at h
        obtain ⟨pre, post, hsplit, hpre, hpa⟩ := ih a h
        refine ⟨x :: pre, post, by rw [hsplit]; rfl, ?_, hpa⟩
        intro y hy
        rcases List.mem_cons.mp hy with rfl | hy2
        · exact hx2
        · exact hpre y hy2

/-- When some element satisfies the predicate, `find?` succeeds. -/
theorem find?_isSome_of_exists {α : Type} (p : α → Bool) :
    ∀ l : List α, (∃ x ∈ l, p x = true) → ∃ a, l.find? p = some a := by
  intro l
  induction l with
  | nil => rintro ⟨x, hx, _⟩; exact absurd hx (List.not_mem_nil x)
  | cons y ys ih =>
      rintro ⟨x, hx, hpx⟩
      by_cases hy : p y = true
      · exact ⟨y, List.find?_cons_of_pos _ hy⟩
      · rcases List.mem_cons.mp hx with rfl | hx2
        · exact absurd hpx hy
        · obtain ⟨a, ha⟩ := ih ⟨x, hx2, hpx⟩
          refine ⟨a, ?_⟩
          rw [List.find?_cons_of_neg _ (by simpa using hy)]
          exact ha

/-- Claim C2: the derived fastest lap is empty exactly when no valid lap exists;
otherwise it is the singleton holding the first valid lap of minimum time among the
valid laps; and on the spec's worked example it picks the time-1000 entry,
excluding the invalid time-900 one. -/
theorem c2_fastest_lap (laps : List Lap) :
    (laps.filter (fun o => o.isValid) = [] → computeFastestLap laps = []) ∧
    (laps.filter (fun o => o.isValid) ≠ [] →
      ∃ l pre post,
        computeFastestLap laps = [l] ∧
        laps.filter (fun o => o.isValid) = pre ++ l :: post ∧
        (∀ x ∈ laps.filter (fun o => o.isValid), l.time ≤ x.time) ∧
        (∀ x ∈ pre, x.time ≠ l.time)) ∧
    computeFastestLap c2DemoLaps = [⟨0, 1000, 0, 0, true⟩] := by
  refine ⟨?_, ?_, by decide⟩
  · intro hv
    unfold computeFastestLap
    by_cases hl : laps.length ≠ 0
    · rw [if_pos hl]
      simp only [hv]
      rfl
    · rw [if_neg hl]
  · intro hv
    have hlaps : laps ≠ [] := by
      intro h0
      rw [h0] at hv
      exact hv rfl
    have hlen : laps.length ≠ 0 := by
      intro h0
      exact hlaps (List.length_eq_zero.mp h0)
    have hvlen : (laps.filter (fun o => o.isValid)).length ≠ 0 := by
      intro h0
      exact hv (List.length_eq_zero.mp h0)
    set v := laps.filter (fun o => o.isValid) with hvdef
    set res := jsMathMin (v.map (fun o => o.time)) with hres
    have hmem : res ∈ v.map (fun o => o.time) := by
      apply jsMathMin_mem
      intro h0
      rw [List.map_eq_nil_iff] at h0
      exact hv h0
    obtain ⟨w, hw, hwt⟩ := List.mem_map.mp hmem
    have hfind : ∃ a, v.find? (fun o => o.time == res) = some a := by
      apply find?_isSome_of_exists
      exact ⟨w, hw, by simpa using hwt⟩
    obtain ⟨l, hl⟩ := hfind
    obtain ⟨pre, post, hsplit, hpre, hpl⟩ := find?_first_split _ v l hl
    have hlt : l.time = res := by simpa using hpl
    refine ⟨l, pre, post, ?_, hsplit, ?_, ?_⟩
    · unfold computeFastestLap
      rw [if_pos hlen]
      simp only [← hvdef, ← hres]
      rw [if_pos hvlen, hl]
    · intro x hx
      rw [hlt]
      exact jsMathMin_le (List.mem_map_of_mem (fun o => o.time) hx)
    · intro x hx hxt
      have : (fun o => o.time == res) x = false := hpre x hx
      simp only [beq_eq_false_iff_ne] at this
      exact this (hxt.trans hlt)

/-- Witness for C2: the non-empty branch instantiated on the worked example. -/
theorem c2_fastest_lap_witness :
    c2DemoLaps.filter (fun o => o.isValid) ≠ [] ∧
      ∃ l pre post,
        computeFastestLap c2DemoLaps = [l] ∧
        c2DemoLaps.filter (fun o => o.isValid) = pre ++ l :: post ∧
        (∀ x ∈ c2DemoLaps.filter (fun o => o.isValid), l.time ≤ x.time) ∧
        (∀ x ∈ pre, x.time ≠ l.time) :=
  ⟨by decide, (c2_fastest_lap c2DemoLaps).2.1 (by decide)⟩

/-- Counterexample to claim C5: after the responses InProgress, InProgress, Success
on consecutive ticks the loop has issued its 3 queries yet has NOT stopped — the
interval is still armed, because each tick checks `uploadStatus` before its own
response has resolved — and the next tick issues a 4th query before clearing the
interval. -/
theorem c5_loop_stops_one_tick_late :
    uploadModelToCar "i-1" (Except.ok (some "cmd-1")) initPollState =
        Except.ok pollDemoStart ∧
      (runTicks ["InProgress", "InProgress", "Success"] pollDemoStart).queriesIssued = 3 ∧
      (runTicks ["InProgress", "InProgress", "Success"] pollDemoStart).intervalSet = true ∧
      (tick "Success" (runTicks ["InProgress", "InProgress", "Success"] pollDemoStart)).queriesIssued
          = 4 ∧
      (tick "Success" (runTicks ["InProgress", "InProgress", "Success"] pollDemoStart)).intervalSet
          = false := by
  refine ⟨rfl, ?_, ?_, ?_, ?_⟩ <;> decide

/-- Claim C5 as amended: for the response sequence InProgress, InProgress, Success
the loop issues 3 queries during those ticks but the recurring timer is still
armed; the terminal status is acted on one tick late — the 4th tick (whatever its
response) issues one more status query and only then clears the interval, for 4
queries in total.  A subsequent manual Refresh issues exactly 1 additional query
and leaves the recurring timer cleared (it never restarts it). -/
theorem c5_poll_query_count (r r2 : String) :
    (runTicks ["InProgress", "InProgress", "Success"] pollDemoStart).queriesIssued = 3 ∧
    (runTicks ["InProgress", "InProgress", "Success"] pollDemoStart).intervalSet = true ∧
    (tick r (runTicks ["InProgress", "InProgress", "Success"] pollDemoStart)).queriesIssued = 4 ∧
    (tick r (runTicks ["InProgress", "InProgress", "Success"] pollDemoStart)).intervalSet = false ∧
    (refreshClick r2 (tick r (runTicks ["InProgress", "InProgress", "Success"]
        pollDemoStart))).queriesIssued = 5 ∧
    (refreshClick r2 (tick r (runTicks ["InProgress", "InProgress", "Success"]
        pollDemoStart))).intervalSet = false := by
  refine ⟨rfl, rfl, ?_, ?_, ?_, ?_⟩ <;>
    simp [runTicks, tick, refreshClick, issueStatusQuery, resolveStatusQuery, pollDemoStart,
      initPollState]

/-- Counterexample to claim C6: a status request in flight when the operator
dismisses the result view still mutates the upload-task state when it resolves —
`result` (blanked to "" by Close) becomes the late response and `uploadStatus` is
overwritten, although the poll loop was cancelled. -/
theorem c6_late_response_mutates_state :
    (closeResultView (issueStatusQuery pollDemoStart)).intervalSet = false ∧
      (closeResultView (issueStatusQuery pollDemoStart)).result = some "" ∧
      (resolveStatusQuery "Success"
          (closeResultView (issueStatusQuery pollDemoStart))).result = some "Success" ∧
      (resolveStatusQuery "Success"
          (closeResultView (issueStatusQuery pollDemoStart))).uploadStatus = "Success" := by
  decide

/-- Claim C6 as amended: dismissing the result view clears the interval, so no
further tick fires afterwards — but the code has no cancellation guard for the
request already in flight: when that request resolves, its response is still
written to `result` and `uploadStatus`. -/
theorem c6_cancellation (s : PollState) (r : String) :
    tick r (closeResultView s) = closeResultView s ∧
      (resolveStatusQuery r (closeResultView s)).result = some r ∧
      (resolveStatusQuery r (closeResultView s)).uploadStatus = r := by
  refine ⟨?_, rfl, rfl⟩
  unfold tick closeResultView
  simp

/-- Counterexample to claim C9: a resolved submit response that carries no command
id is not rejected — the call succeeds and the upload task still becomes
InProgress with the recurring poll loop started (`intervalSet := true` in the
resulting state), the null response stored as the CommandId. -/
theorem c9_no_command_id_not_rejected :
    uploadModelToCar "i-1" (Except.ok none) initPollState =
      Except.ok { initPollState with
                    result := none
                    commandId := none
                    currentInstanceId := "i-1"
                    uploadStatus := "InProgress"
                    intervalSet := true } := rfl

/-- Claim C9 as amended: submit fails (the rejection of the remote call propagates
out of the async function, before any state update) exactly when the remote call
errors, and then no poll loop is started; the response is never validated — on any
resolved response, even one carrying no command id, the status becomes InProgress
and the recurring poll loop starts with the entire response stored as the
CommandId. -/
theorem c9_upload_initiation (s : PollState) (iid : String) (v : Option String) :
    uploadModelToCar iid (Except.error ()) s = Except.error () ∧
      uploadModelToCar iid (Except.ok v) s =
        Except.ok { s with
                      result := v
                      commandId := v
                      currentInstanceId := iid
                      uploadStatus := "InProgress"
                      intervalSet := true } :=
  ⟨rfl, rfl⟩

/-- The object actionHandler builds from an out-of-range index: spread of
undefined, then `isValid = !undefined = true`. -/
theorem actionHandlerJs_out_of_range_obj {laps : JsLapArr} {id : Nat}
    (h : laps.length ≤ id) :
    actionHandlerJs laps id =
      laps ++ List.replicate (id - laps.length) none ++
        [some { id := none, time := none, resets := none, crashes := none,
                isValid := some true }] := by
  unfold actionHandlerJs
  have hidx : jsIndex laps id = none := by
    unfold jsIndex
    rw [List.get?_eq_getElem?, List.getElem?_eq_none h]
    rfl
  rw [hidx]
  unfold jsAssign
  rw [if_neg (by omega)]
  rfl

/-- Claim C10: toggling the validity of a non-existent lap id does not leave the
sequence unchanged — it stores at index `id` a fresh object whose only field is
`isValid = true`, extending the array to length `id + 1` (holes in between) and
breaking the density invariant. -/
theorem c10_out_of_range_toggle (laps : JsLapArr) (id : Nat)
    (h : laps.length ≤ id) :
    (actionHandlerJs laps id).length = id + 1 ∧
      actionHandlerJs laps id ≠ laps ∧
      jsIndex (actionHandlerJs laps id) id =
        some { id := none, time := none, resets := none, crashes := none,
               isValid := some true } ∧
      ¬ jsLapsDense (actionHandlerJs laps id) := by
  have hrw := actionHandlerJs_out_of_range_obj h
  have hlen : (actionHandlerJs laps id).length = id + 1 := by
    rw [hrw]
    simp
    omega
  have hpre : (laps ++ List.replicate (id - laps.length) none).length = id := by
    simp
    omega
  obtain ⟨A, hA1, hA2⟩ :
      ∃ A : JsLapArr, actionHandlerJs laps id =
          A ++ [some { id := none, time := none, resets := none, crashes := none,
                       isValid := some true }] ∧ A.length = id :=
    ⟨laps ++ List.replicate (id - laps.length) none, hrw, hpre⟩
  have hget : (actionHandlerJs laps id).get? id =
      some (some { id := none, time := none, resets := none, crashes := none,
                   isValid := some true }) := by
    rw [hA1, ← hA2, List.get?_eq_getElem?]
    exact List.getElem?_concat_length A _
  have hval : jsIndex (actionHandlerJs laps id) id =
      some { id := none, time := none, resets := none, crashes := none,
             isValid := some true } := by
    unfold jsIndex
    rw [hget]
    rfl
  refine ⟨hlen, ?_, hval, ?_⟩
  · intro heq
    rw [heq] at hlen
    omega
  · intro hd
    have hid : id < (actionHandlerJs laps id).length := by omega
    obtain ⟨l, hl, hlid⟩ := hd ⟨id, hid⟩
    have hget2 : (actionHandlerJs laps id).get? id =
        some ((actionHandlerJs laps id).get ⟨id, hid⟩) := List.get?_eq_get hid
    rw [hget] at hget2
    have h3 : (actionHandlerJs laps id).get ⟨id, hid⟩ =
        some { id := none, time := none, resets := none, crashes := none,
               isValid := some true } :=
      (Option.some.inj hget2).symm
    have h4 : ({ id := none, time := none, resets := none, crashes := none,
                 isValid := some true } : LapObj) = l :=
      Option.some.inj (h3.symm.trans hl)
    rw [← h4] at hlid
    simp at hlid

/-- Witness for C10: toggling lap id 2 on an empty lap array yields a three-element
array holding only `isValid = true` at index 2, breaking density. -/
theorem c10_out_of_range_toggle_witness :
    ([] : JsLapArr).length ≤ 2 ∧
      ((actionHandlerJs [] 2).length = 2 + 1 ∧
        actionHandlerJs ([] : JsLapArr) 2 ≠ [] ∧
        jsIndex (actionHandlerJs [] 2) 2 =
          some { id := none, time := none, resets := none, crashes := none,
                 isValid := some true } ∧
        ¬ jsLapsDense (actionHandlerJs ([] : JsLapArr) 2)) :=
  ⟨by decide, c10_out_of_range_toggle [] 2 (by decide)⟩

end DREM
